import Mathlib

/-!
Shallow embedding of `src/app/main.py` (GIF Maker): the core rendering
pipeline `build_gif_bytes` and its helpers `_rgba_to_rgb`,
`_resize_stretch`, `_resize_cover_crop` and `_make_global_palette`.

Images are modelled structurally: an `Image` carries its PIL mode, its
dimensions, and a free term (`Pix`) recording exactly which library
operations produced its pixel data.  The Pillow library calls used by the
code (`resize`, `crop`, `paste`, `alpha_composite`, `quantize`, `convert`,
`Image.new`) are embedded as constructors of that free term together with
their documented effect on mode and dimensions.  Arithmetic the Python
code performs on floats is modelled exactly over `ℚ`; Python's `round`
(round half to even) is modelled by `pyRound`.  The per-pixel effect of
alpha compositing, which the claims about the flattener need, is modelled
separately over rational channel values (`PixelRGBA`).
-/

namespace GifMaker

/-- PIL image modes occurring in the program: `RGBA`, `RGB` and `P`
(paletted). -/
inductive Mode where
  | RGBA
  | RGB
  | P
deriving DecidableEq, Repr

/-- Free term tracking the provenance of an image's pixel data: one
constructor per Pillow operation the program applies.  `source id` is the
decoded pixel buffer of the `id`-th uploaded file. -/
inductive Pix where
  | source (id : ℕ)
  | fill (w h r g b a : ℕ)
  | lanczos (p : Pix) (w h : ℕ)
  | converted (p : Pix) (m : Mode)
  | composited (bg fg : Pix)
  | cropped (p : Pix) (left top right bottom : ℕ)
  | pasted (base t : Pix) (x y : ℕ)
  | octree (p : Pix) (colors : ℕ)
  | palMapped (p pal : Pix) (dither : Bool)
deriving DecidableEq, Repr

/-- A PIL image: mode, width, height and pixel data. -/
structure Image where
  mode : Mode
  width : ℕ
  height : ℕ
  data : Pix
deriving DecidableEq, Repr

/-- `im.convert(mode)`: changes the mode, keeps the dimensions. -/
def Image.convert (im : Image) (m : Mode) : Image :=
  ⟨m, im.width, im.height, .converted im.data m⟩

/-- `im.resize((w, h), resample=LANCZOS)`: Lanczos resampling to exactly
`w × h`, mode preserved. -/
def Image.resize (im : Image) (w h : ℕ) : Image :=
  ⟨im.mode, w, h, .lanczos im.data w h⟩

/-- `im.crop((l, t, r, b))`: the result has size `(r - l) × (b - t)`. -/
def Image.crop (im : Image) (l t r b : ℕ) : Image :=
  ⟨im.mode, r - l, b - t, .cropped im.data l t r b⟩

/-- `Image.new(mode, (w, h), (r, g, b, a))`: a constant-filled image. -/
def Image.new (m : Mode) (w h r g b a : ℕ) : Image :=
  ⟨m, w, h, .fill w h r g b a⟩

/-- `Image.alpha_composite(bg, fg)`: both arguments RGBA of equal size,
result RGBA of the background's size. -/
def Image.alpha_composite (bg fg : Image) : Image :=
  ⟨.RGBA, bg.width, bg.height, .composited bg.data fg.data⟩

/-- `base.paste(t, (x, y))` (modelled functionally): dimensions and mode of
`base` are unchanged. -/
def Image.paste (base t : Image) (x y : ℕ) : Image :=
  ⟨base.mode, base.width, base.height, .pasted base.data t.data x y⟩

/-- `im.quantize(colors=c, method=FASTOCTREE)`: octree quantization to at
most `c` representative colors; the result is a paletted (`P`) image of the
same size. -/
def Image.quantize (im : Image) (colors : ℕ) : Image :=
  ⟨.P, im.width, im.height, .octree im.data colors⟩

/-- `im.quantize(palette=pal, dither=FLOYDSTEINBERG)`: map `im` onto the
palette of `pal` with Floyd–Steinberg dithering; paletted result of the
same size. -/
def Image.quantizePal (im pal : Image) : Image :=
  ⟨.P, im.width, im.height, .palMapped im.data pal.data true⟩

/-- Errors a run of the core can surface.  `indexError` models Python's
built-in `IndexError` (raised by `frames_rgba[0]` on an empty list); the
remaining constructors are the typed error kinds named by the design
(`EmptyInputError`, `InvalidParameterError`, `DecodeError`, `EncodeError`)
so that statements about them can be expressed — the code itself defines
no such exception classes. -/
inductive Err where
  | indexError
  | emptyInputError
  | invalidParameterError
  | decodeError
  | encodeError
deriving DecidableEq, Repr

/-- The `fit` parameter: `"stretch"` or `"cover"`. -/
inductive Fit where
  | stretch
  | cover
deriving DecidableEq, Repr

/-- Python's built-in `round` on an exact rational value: round to the
nearest integer, ties to the even integer (banker's rounding, the float
`round` semantics used at `int(round(1000.0 / ...))`). -/
def pyRound (q : ℚ) : ℤ :=
  if q - ⌊q⌋ < 1 / 2 then ⌊q⌋
  else if 1 / 2 < q - ⌊q⌋ then ⌊q⌋ + 1
  else if ⌊q⌋ % 2 = 0 then ⌊q⌋ else ⌊q⌋ + 1

/-- `_rgba_to_rgb(im, bg=(0, 0, 0))`: if the mode is RGBA, alpha-composite
the frame over an opaque black background of the same size and convert to
RGB; otherwise convert to RGB directly. -/
def rgba_to_rgb (im : Image) : Image :=
  if im.mode = .RGBA then
    (Image.alpha_composite (Image.new .RGBA im.width im.height 0 0 0 255) im).convert .RGB
  else im.convert .RGB

/-- `_resize_stretch(img, w, h)`: return `img` unchanged when it already
has size `(w, h)`, otherwise Lanczos-resize to `(w, h)`. -/
def resize_stretch (img : Image) (w h : ℕ) : Image :=
  if img.width = w ∧ img.height = h then img
  else img.resize w h

/-- `scale = max(w / src_w, h / src_h)` in `_resize_cover_crop`, over `ℚ`. -/
def cover_scale (img : Image) (w h : ℕ) : ℚ :=
  max ((w : ℚ) / img.width) ((h : ℚ) / img.height)

/-- `new_w = int(math.ceil(src_w * scale))` in `_resize_cover_crop`. -/
def cover_new_w (img : Image) (w h : ℕ) : ℕ :=
  (Int.ceil ((img.width : ℚ) * cover_scale img w h)).toNat

/-- `new_h = int(math.ceil(src_h * scale))` in `_resize_cover_crop`. -/
def cover_new_h (img : Image) (w h : ℕ) : ℕ :=
  (Int.ceil ((img.height : ℚ) * cover_scale img w h)).toNat

/-- `_resize_cover_crop(img, w, h)`: degenerate sources are resized
directly; otherwise resize by the uniform cover scale (dimensions rounded
up) and crop the centered `w × h` box. -/
def resize_cover_crop (img : Image) (w h : ℕ) : Image :=
  if img.width = 0 ∨ img.height = 0 then img.resize w h
  else
    let new_w := cover_new_w img w h
    let new_h := cover_new_h img w h
    let img2 := img.resize new_w new_h
    let left := (new_w - w) / 2
    let top := (new_h - h) / 2
    img2.crop left top (left + w) (top + h)

/-- The `fit` dispatch inside `build_gif_bytes`: `cover` uses
`_resize_cover_crop`, anything else uses `_resize_stretch`. -/
def resize_fit (img : Image) (w h : ℕ) : Fit → Image
  | .cover => resize_cover_crop img w h
  | .stretch => resize_stretch img w h

/-- `_make_global_palette(frames_rgba)`: thumbnail each frame to a quarter
of the first frame's size (at least `1 × 1`), paste the thumbnails left to
right into a fresh RGBA strip of width `thumb_w * len(thumbs)`, and octree
quantize the strip to 256 colors.  `frames_rgba[0]` on an empty list raises
`IndexError`. -/
def make_global_palette (frames_rgba : List Image) : Except Err Image :=
  match frames_rgba with
  | [] => .error .indexError
  | f0 :: _ =>
    let thumb_w := max 1 (f0.width / 4)
    let thumb_h := max 1 (f0.height / 4)
    let thumbs := frames_rgba.map (fun f => f.resize thumb_w thumb_h)
    let montage0 := Image.new .RGBA (thumb_w * thumbs.length) thumb_h 0 0 0 0
    let montage :=
      (thumbs.foldl (fun acc t => (acc.1.paste t acc.2 0, acc.2 + thumb_w)) (montage0, 0)).1
    .ok (montage.quantize 256)

/-- The first loop of `build_gif_bytes`: decode each upload to RGBA
(inputs are modelled as already-decoded images, so only the
`convert("RGBA")` step remains) and resize it by the selected policy, in
input order. -/
def pipeline_frames (files : List Image) (width height : ℕ) (fit : Fit) : List Image :=
  files.map (fun f => resize_fit (f.convert .RGBA) width height fit)

/-- The animated GIF written by `frames_p[0].save(...)`: the ordered frame
list, the per-frame delays (a scalar `duration` is applied by Pillow to
every frame), `loop`, `disposal` and `optimize` exactly as passed. -/
structure GifOutput where
  frames : List Image
  delays : List ℤ
  loop : ℕ
  disposal : ℕ
  optimize : Bool
deriving DecidableEq, Repr

/-- `build_gif_bytes(files, width, height, fps, fit)`: compute the delay
from fps (clamped to at least `0.01`), resize every input, build the
shared palette, flatten and palette-quantize every frame, and assemble the
GIF with `duration=duration_ms, loop=0, disposal=2, optimize=False`.
`frames_p[0]` on an empty list would raise `IndexError`. -/
def build_gif_bytes (files : List Image) (width height : ℕ) (fps : ℚ) (fit : Fit) :
    Except Err GifOutput :=
  let duration_ms := pyRound (1000 / max (1 / 100) fps)
  let frames_rgba := pipeline_frames files width height fit
  match make_global_palette frames_rgba with
  | .error e => .error e
  | .ok palette_img =>
    let frames_p := frames_rgba.map (fun fr => (rgba_to_rgb fr).quantizePal palette_img)
    match frames_p with
    | [] => .error .indexError
    | _ :: _ =>
      .ok ⟨frames_p, List.replicate frames_p.length duration_ms, 0, 2, false⟩

/-- An RGBA pixel with exact rational channel values (`0 ≤ channel ≤ 255`,
alpha `a` likewise on the `0..255` scale). -/
structure PixelRGBA where
  r : ℚ
  g : ℚ
  b : ℚ
  a : ℚ
deriving DecidableEq, Repr

/-- An opaque RGB pixel with exact rational channel values. -/
structure PixelRGB where
  r : ℚ
  g : ℚ
  b : ℚ
deriving DecidableEq, Repr

/-- Per-pixel semantics of `Image.alpha_composite(bg, fg)`: Porter–Duff
"over" with alphas normalized to `0..1`, channels premultiplied, then
un-premultiplied (idealized over `ℚ`). -/
def alphaOverPixel (bg fg : PixelRGBA) : PixelRGBA :=
  let fa := fg.a / 255
  let ba := bg.a / 255
  let oa := fa + ba * (1 - fa)
  if oa = 0 then ⟨0, 0, 0, 0⟩
  else
    ⟨(fg.r * fa + bg.r * ba * (1 - fa)) / oa,
     (fg.g * fa + bg.g * ba * (1 - fa)) / oa,
     (fg.b * fa + bg.b * ba * (1 - fa)) / oa,
     255 * oa⟩

/-- The fixed background `bg=(0, 0, 0)` of `_rgba_to_rgb`, made opaque by
`bg + (255,)`: opaque black. -/
def blackOpaque : PixelRGBA := ⟨0, 0, 0, 255⟩

/-- Per-pixel action of `_rgba_to_rgb` on an RGBA frame: composite over
opaque black, then drop the alpha channel (`convert("RGB")`). -/
def flatten_pixel (p : PixelRGBA) : PixelRGB :=
  let q := alphaOverPixel blackOpaque p
  ⟨q.r, q.g, q.b⟩

/-- Modelled from the spec (§4.1 `cover`): scale uniformly by
`max(targetW/srcW, targetH/srcH)`, round the scaled dimensions up, then
center-crop to exactly `targetW × targetH`; if either source dimension is
zero, fall back to a direct non-uniform resize to the target size. -/
def resize_cover_spec (img : Image) (w h : ℕ) : Image :=
  if img.width = 0 ∨ img.height = 0 then img.resize w h
  else
    let scale : ℚ := max ((w : ℚ) / img.width) ((h : ℚ) / img.height)
    let scaledW := (Int.ceil ((img.width : ℚ) * scale)).toNat
    let scaledH := (Int.ceil ((img.height : ℚ) * scale)).toNat
    let im2 := img.resize scaledW scaledH
    im2.crop ((im2.width - w) / 2) ((im2.height - h) / 2)
      ((im2.width - w) / 2 + w) ((im2.height - h) / 2 + h)

/-- Modelled from the spec (§4.3): lay the thumbnails side by side
horizontally in frame order — the `i`-th thumbnail is pasted at x-offset
`i * tw`. -/
def paste_row_spec (m : Image) (ts : List Image) (i tw : ℕ) : Image :=
  match ts with
  | [] => m
  | t :: rest => paste_row_spec (m.paste t (i * tw) 0) rest (i + 1) tw

/-- Modelled from the spec (§4.3): the composite strip — every frame
downscaled to `max 1 (w / 4) × max 1 (h / 4)` and pasted side by side in
frame order into one wide strip of width `thumbW * N`. -/
def montage_spec (frames : List Image) (w h : ℕ) : Image :=
  let tw := max 1 (w / 4)
  let th := max 1 (h / 4)
  paste_row_spec (Image.new .RGBA (tw * frames.length) th 0 0 0 0)
    (frames.map (fun f => f.resize tw th)) 0 tw

/-- Modelled from the spec (§2 control flow): the variant of
`build_gif_bytes` in which the Alpha Flattener's output feeds the Shared
Palette Builder (the spec's branch sends flattened frames both to the
palette builder and to the per-frame quantizer); identical to
`build_gif_bytes` in every other respect. -/
def build_gif_bytes_flattened_palette (files : List Image) (width height : ℕ)
    (fps : ℚ) (fit : Fit) : Except Err GifOutput :=
  let duration_ms := pyRound (1000 / max (1 / 100) fps)
  let frames_rgba := pipeline_frames files width height fit
  match make_global_palette (frames_rgba.map rgba_to_rgb) with
  | .error e => .error e
  | .ok palette_img =>
    let frames_p := frames_rgba.map (fun fr => (rgba_to_rgb fr).quantizePal palette_img)
    match frames_p with
    | [] => .error .indexError
    | _ :: _ =>
      .ok ⟨frames_p, List.replicate frames_p.length duration_ms, 0, 2, false⟩

/-- A concrete decoded source image used by counterexamples and witnesses:
a 4 × 4 RGB image (file id 0). -/
def img0 : Image := ⟨.RGB, 4, 4, .source 0⟩

/-- The ordered frame list of a successful render (empty on failure). -/
def framesOf : Except Err GifOutput → List Image
  | .ok g => g.frames
  | .error _ => []

/-- Whether a render returned a GIF rather than an error. -/
def isOk : Except Err GifOutput → Bool
  | .ok _ => true
  | .error _ => false

lemma pyRound_eq_low (q : ℚ) (f : ℤ) (hf : ⌊q⌋ = f) (h : q - f < 1 / 2) :
    pyRound q = f := by
  unfold pyRound
  rw [hf, if_pos h]

lemma pyRound_eq_high (q : ℚ) (f : ℤ) (hf : ⌊q⌋ = f) (h : 1 / 2 < q - f) :
    pyRound q = f + 1 := by
  unfold pyRound
  rw [hf, if_neg (by linarith), if_pos h]

lemma build_gif_bytes_eq_ok (f : Image) (fs : List Image) (w h : ℕ) (fps : ℚ) (fit : Fit) :
    ∃ pal, make_global_palette (pipeline_frames (f :: fs) w h fit) = .ok pal
      ∧ build_gif_bytes (f :: fs) w h fps fit =
          .ok ⟨(pipeline_frames (f :: fs) w h fit).map
                 (fun fr => (rgba_to_rgb fr).quantizePal pal),
               List.replicate (f :: fs).length (pyRound (1000 / max (1 / 100) fps)),
               0, 2, false⟩ := by
  refine ⟨_, rfl, ?_⟩
  simp only [build_gif_bytes, pipeline_frames, List.map_cons, List.length_map,
    List.length_cons, make_global_palette]

lemma resize_fit_mode (img : Image) (w h : ℕ) (fit : Fit) :
    (resize_fit img w h fit).mode = img.mode := by
  cases fit with
  | stretch =>
    by_cases hc : img.width = w ∧ img.height = h <;>
      simp [resize_fit, resize_stretch, hc, Image.resize]
  | cover =>
    by_cases hz : img.width = 0 ∨ img.height = 0 <;>
      simp [resize_fit, resize_cover_crop, hz, Image.resize, Image.crop]

lemma rgba_to_rgb_mode (im : Image) : (rgba_to_rgb im).mode = Mode.RGB := by
  by_cases hm : im.mode = Mode.RGBA <;> simp [rgba_to_rgb, hm, Image.convert]

lemma paste_foldl_eq_spec (ts : List Image) (m : Image) (i tw : ℕ) :
    (ts.foldl (fun acc t => (acc.1.paste t acc.2 0, acc.2 + tw)) (m, i * tw)).1
      = paste_row_spec m ts i tw := by
  induction ts generalizing m i with
  | nil => rfl
  | cons t rest ih =>
    simp only [List.foldl_cons, paste_row_spec]
    have hstep : i * tw + tw = (i + 1) * tw := by ring
    rw [hstep]
    exact ih (m.paste t (i * tw) 0) (i + 1)

lemma paste_foldl_zero (ts : List Image) (m : Image) (tw : ℕ) :
    (ts.foldl (fun acc t => (acc.1.paste t acc.2 0, acc.2 + tw)) (m, 0)).1
      = paste_row_spec m ts 0 tw := by
  have h := paste_foldl_eq_spec ts m 0 tw
  rwa [Nat.zero_mul] at h

lemma paste_row_spec_dims (ts : List Image) (m : Image) (i tw : ℕ) :
    (paste_row_spec m ts i tw).mode = m.mode
    ∧ (paste_row_spec m ts i tw).width = m.width
    ∧ (paste_row_spec m ts i tw).height = m.height := by
  induction ts generalizing m i with
  | nil => exact ⟨rfl, rfl, rfl⟩
  | cons t rest ih =>
    simpa [paste_row_spec, Image.paste] using ih (m.paste t (i * tw) 0) (i + 1)

/-- C1: for every non-empty ordered list of decoded input images,
`build_gif_bytes` succeeds and the output GIF contains exactly one frame
per input image in input order (the `i`-th frame is the `i`-th input,
resized, flattened and quantized against the shared palette), with loop
count `0` (infinite looping), disposal method `2` ("restore to
background"), and one identical delay for every frame. -/
theorem gif_structure (files : List Image) (w h : ℕ) (fps : ℚ) (fit : Fit)
    (hne : files ≠ []) :
    ∃ pal g, make_global_palette (pipeline_frames files w h fit) = .ok pal
      ∧ build_gif_bytes files w h fps fit = .ok g
      ∧ g.frames = files.map
          (fun f => (rgba_to_rgb (resize_fit (f.convert .RGBA) w h fit)).quantizePal pal)
      ∧ g.frames.length = files.length
      ∧ g.loop = 0
      ∧ g.disposal = 2
      ∧ g.delays = List.replicate files.length (pyRound (1000 / max (1 / 100) fps)) := by
  obtain ⟨f, fs, rfl⟩ := List.exists_cons_of_ne_nil hne
  obtain ⟨pal, hpal, hbuild⟩ := build_gif_bytes_eq_ok f fs w h fps fit
  refine ⟨pal, _, hpal, hbuild, ?_, ?_, rfl, rfl, rfl⟩
  · simp [pipeline_frames, List.map_map, Function.comp]
  · simp [pipeline_frames]

/-- Witness for C1 at a concrete input: one 4 × 4 source image, target
2 × 2, fps 1, stretch. -/
theorem gif_structure_witness :
    ([img0] : List Image) ≠ []
    ∧ ∃ pal g, make_global_palette (pipeline_frames [img0] 2 2 .stretch) = .ok pal
        ∧ build_gif_bytes [img0] 2 2 1 .stretch = .ok g
        ∧ g.frames = [img0].map
            (fun f => (rgba_to_rgb (resize_fit (f.convert .RGBA) 2 2 .stretch)).quantizePal pal)
        ∧ g.frames.length = [img0].length
        ∧ g.loop = 0
        ∧ g.disposal = 2
        ∧ g.delays = List.replicate [img0].length (pyRound (1000 / max (1 / 100) 1)) :=
  ⟨by simp, gif_structure [img0] 2 2 1 .stretch (by simp)⟩

/-- C2 counterexample: on the empty input list the core raises Python's
`IndexError` (from `frames_rgba[0]` in `_make_global_palette`), not a
typed `EmptyInputError`. -/
theorem empty_input_not_typed_error_cex :
    build_gif_bytes [] 2 2 1 Fit.stretch = .error Err.indexError
    ∧ build_gif_bytes [] 2 2 1 Fit.stretch ≠ .error Err.emptyInputError := by
  refine ⟨rfl, ?_⟩
  rw [show build_gif_bytes [] 2 2 1 Fit.stretch = .error Err.indexError from rfl]
  simp

/-- C2 amended: for the empty input list, `build_gif_bytes` fails — it
produces no GIF output — but the failure is an uncaught `IndexError`
crash, not a typed `EmptyInputError` (no such error type exists in the
code; only the excluded HTTP layer checks for zero files). -/
theorem empty_input_raises_index_error (w h : ℕ) (fps : ℚ) (fit : Fit) :
    build_gif_bytes [] w h fps fit = .error Err.indexError := rfl

/-- C3: under both policies the resized frame has exactly the target
dimensions, and under stretch a source that is already the target size is
returned unchanged. -/
theorem resize_dimensions (img : Image) (w h : ℕ) (hw : 0 < w) (hh : 0 < h) :
    (resize_stretch img w h).width = w
    ∧ (resize_stretch img w h).height = h
    ∧ (resize_cover_crop img w h).width = w
    ∧ (resize_cover_crop img w h).height = h
    ∧ (img.width = w ∧ img.height = h → resize_stretch img w h = img) := by
  refine ⟨?_, ?_, ?_, ?_, ?_⟩
  · by_cases hc : img.width = w ∧ img.height = h
    · simp [resize_stretch, hc, hc.1]
    · simp [resize_stretch, hc, Image.resize]
  · by_cases hc : img.width = w ∧ img.height = h
    · simp [resize_stretch, hc, hc.2]
    · simp [resize_stretch, hc, Image.resize]
  · by_cases hz : img.width = 0 ∨ img.height = 0 <;>
      simp [resize_cover_crop, hz, Image.resize, Image.crop]
  · by_cases hz : img.width = 0 ∨ img.height = 0 <;>
      simp [resize_cover_crop, hz, Image.resize, Image.crop]
  · intro hc
    simp [resize_stretch, hc]

/-- Witness for C3 at a concrete input: the 4 × 4 image `img0`, target
4 × 4 (so the stretch policy returns it unchanged). -/
theorem resize_dimensions_witness :
    (0 < 4 ∧ 0 < 4)
    ∧ ((resize_stretch img0 4 4).width = 4
       ∧ (resize_stretch img0 4 4).height = 4
       ∧ (resize_cover_crop img0 4 4).width = 4
       ∧ (resize_cover_crop img0 4 4).height = 4
       ∧ (img0.width = 4 ∧ img0.height = 4 → resize_stretch img0 4 4 = img0)) :=
  ⟨by decide, resize_dimensions img0 4 4 (by decide) (by decide)⟩

/-- C4: `_resize_cover_crop` coincides, on every input, with the spec's
cover policy — uniform scale `max(targetW/srcW, targetH/srcH)`, scaled
dimensions rounded up, center-crop to the target box, with the direct
non-uniform resize fallback when either source dimension is zero. -/
theorem cover_policy_refinement (img : Image) (w h : ℕ) :
    resize_cover_crop img w h = resize_cover_spec img w h := by
  unfold resize_cover_crop resize_cover_spec cover_new_w cover_new_h cover_scale
  rfl

/-- C5: every frame of a successful render carries the one delay
`round(1000 / max(0.01, fps))` milliseconds (Python's `round`, ties to
even), and for fps `0.5`, `1` and `24` that delay is `2000`, `1000` and
`42` respectively. -/
theorem frame_delay_correct (files : List Image) (w h : ℕ) (fps : ℚ) (fit : Fit)
    (hne : files ≠ []) :
    (∃ g, build_gif_bytes files w h fps fit = .ok g
        ∧ ∀ d ∈ g.delays, d = pyRound (1000 / max (1 / 100) fps))
    ∧ pyRound (1000 / max (1 / 100) (1 / 2)) = 2000
    ∧ pyRound (1000 / max (1 / 100) 1) = 1000
    ∧ pyRound (1000 / max (1 / 100) 24) = 42 := by
  refine ⟨?_, ?_, ?_, ?_⟩
  · obtain ⟨f, fs, rfl⟩ := List.exists_cons_of_ne_nil hne
    obtain ⟨pal, _, hbuild⟩ := build_gif_bytes_eq_ok f fs w h fps fit
    exact ⟨_, hbuild, fun d hd => List.eq_of_mem_replicate hd⟩
  · rw [show (1000 / max (1 / 100) (1 / 2) : ℚ) = 2000 by norm_num]
    exact pyRound_eq_low 2000 2000 (by norm_num) (by norm_num)
  · rw [show (1000 / max (1 / 100) 1 : ℚ) = 1000 by norm_num]
    exact pyRound_eq_low 1000 1000 (by norm_num) (by norm_num)
  · rw [show (1000 / max (1 / 100) 24 : ℚ) = 125 / 3 by norm_num]
    have h2 := pyRound_eq_high (125 / 3) 41 (by norm_num [Int.floor_eq_iff]) (by norm_num)
    simpa using h2

/-- Witness for C5 at a concrete input: one 4 × 4 source image, target
2 × 2, fps 1, stretch. -/
theorem frame_delay_correct_witness :
    ([img0] : List Image) ≠ []
    ∧ ((∃ g, build_gif_bytes [img0] 2 2 1 .stretch = .ok g
          ∧ ∀ d ∈ g.delays, d = pyRound (1000 / max (1 / 100) 1))
       ∧ pyRound (1000 / max (1 / 100) (1 / 2)) = 2000
       ∧ pyRound (1000 / max (1 / 100) 1) = 1000
       ∧ pyRound (1000 / max (1 / 100) 24) = 42) :=
  ⟨by simp, frame_delay_correct [img0] 2 2 1 .stretch (by simp)⟩

/-- C6: for every non-empty list of equally-sized frames,
`_make_global_palette` octree-quantizes, with a 256-color budget, exactly
the spec's composite strip: each frame downscaled to
`max 1 (w / 4) × max 1 (h / 4)` and pasted side by side in frame order
(the `i`-th thumbnail at x-offset `i · thumbW`) into one wide strip of
width `thumbW · N`; a single frame degenerates to a one-thumbnail strip. -/
theorem palette_builder_correct (frames : List Image) (w h : ℕ)
    (hne : frames ≠ []) (hsz : ∀ f ∈ frames, f.width = w ∧ f.height = h) :
    make_global_palette frames = .ok ((montage_spec frames w h).quantize 256)
    ∧ (montage_spec frames w h).width = max 1 (w / 4) * frames.length
    ∧ (montage_spec frames w h).height = max 1 (h / 4)
    ∧ ∀ f : Image, montage_spec [f] w h =
        (Image.new .RGBA (max 1 (w / 4) * 1) (max 1 (h / 4)) 0 0 0 0).paste
          (f.resize (max 1 (w / 4)) (max 1 (h / 4))) 0 0 := by
  refine ⟨?_, ?_, ?_, ?_⟩
  · obtain ⟨f0, rest, rfl⟩ := List.exists_cons_of_ne_nil hne
    obtain ⟨hfw, hfh⟩ := hsz f0 (by simp)
    simp only [make_global_palette, hfw, hfh, montage_spec]
    rw [paste_foldl_zero]
    simp [List.length_map]
  · have hdims := paste_row_spec_dims
      ((frames.map (fun f => f.resize (max 1 (w / 4)) (max 1 (h / 4)))))
      (Image.new .RGBA (max 1 (w / 4) * frames.length) (max 1 (h / 4)) 0 0 0 0)
      0 (max 1 (w / 4))
    simpa [montage_spec, Image.new] using hdims.2.1
  · have hdims := paste_row_spec_dims
      ((frames.map (fun f => f.resize (max 1 (w / 4)) (max 1 (h / 4)))))
      (Image.new .RGBA (max 1 (w / 4) * frames.length) (max 1 (h / 4)) 0 0 0 0)
      0 (max 1 (w / 4))
    simpa [montage_spec, Image.new] using hdims.2.2
  · intro f
    simp [montage_spec, paste_row_spec]

/-- Witness for C6 at a concrete input: the single 4 × 4 frame `img0`
(which also exercises the degenerate one-thumbnail composite). -/
theorem palette_builder_correct_witness :
    (([img0] : List Image) ≠ [] ∧ ∀ f ∈ ([img0] : List Image), f.width = 4 ∧ f.height = 4)
    ∧ (make_global_palette [img0] = .ok ((montage_spec [img0] 4 4).quantize 256)
       ∧ (montage_spec [img0] 4 4).width = max 1 (4 / 4) * [img0].length
       ∧ (montage_spec [img0] 4 4).height = max 1 (4 / 4)
       ∧ ∀ f : Image, montage_spec [f] 4 4 =
           (Image.new .RGBA (max 1 (4 / 4) * 1) (max 1 (4 / 4)) 0 0 0 0).paste
             (f.resize (max 1 (4 / 4)) (max 1 (4 / 4))) 0 0) :=
  ⟨⟨by simp, by simp [img0]⟩,
   palette_builder_correct [img0] 4 4 (by simp) (by simp [img0])⟩

/-- C7 counterexample: at a concrete input, the frames the code produces
differ from those of the spec's control flow in which the Alpha
Flattener's output feeds the Shared Palette Builder — the code builds the
palette from the unflattened RGBA frames. -/
theorem palette_input_cex :
    framesOf (build_gif_bytes [img0] 2 2 1 .stretch)
      ≠ framesOf (build_gif_bytes_flattened_palette [img0] 2 2 1 .stretch) := by
  decide

/-- C7 amended: the Shared Palette Builder's input is the Resizer's
output — RGBA frames that have not passed through the Alpha Flattener
(whose output always has mode RGB); the Flattener is applied only on the
per-frame quantization path, after the palette has been built. -/
theorem palette_from_unflattened (files : List Image) (w h : ℕ) (fps : ℚ) (fit : Fit)
    (hne : files ≠ []) :
    (∀ f ∈ pipeline_frames files w h fit, f.mode = Mode.RGBA)
    ∧ (∀ im : Image, (rgba_to_rgb im).mode = Mode.RGB)
    ∧ ∃ pal, make_global_palette (pipeline_frames files w h fit) = .ok pal
        ∧ build_gif_bytes files w h fps fit =
            .ok ⟨(pipeline_frames files w h fit).map
                   (fun fr => (rgba_to_rgb fr).quantizePal pal),
                 List.replicate files.length (pyRound (1000 / max (1 / 100) fps)),
                 0, 2, false⟩ := by
  refine ⟨?_, fun im => rgba_to_rgb_mode im, ?_⟩
  · intro f hf
    simp only [pipeline_frames, List.mem_map] at hf
    obtain ⟨x, _, rfl⟩ := hf
    rw [resize_fit_mode]
    rfl
  · obtain ⟨f, fs, rfl⟩ := List.exists_cons_of_ne_nil hne
    exact build_gif_bytes_eq_ok f fs w h fps fit

/-- Witness for C7's amended statement at a concrete input. -/
theorem palette_from_unflattened_witness :
    ([img0] : List Image) ≠ []
    ∧ ((∀ f ∈ pipeline_frames [img0] 2 2 .stretch, f.mode = Mode.RGBA)
       ∧ (∀ im : Image, (rgba_to_rgb im).mode = Mode.RGB)
       ∧ ∃ pal, make_global_palette (pipeline_frames [img0] 2 2 .stretch) = .ok pal
           ∧ build_gif_bytes [img0] 2 2 1 .stretch =
               .ok ⟨(pipeline_frames [img0] 2 2 .stretch).map
                      (fun fr => (rgba_to_rgb fr).quantizePal pal),
                    List.replicate [img0].length (pyRound (1000 / max (1 / 100) 1)),
                    0, 2, false⟩) :=
  ⟨by simp, palette_from_unflattened [img0] 2 2 1 .stretch (by simp)⟩

/-- C8: the Alpha Flattener always yields an RGB (fully opaque) frame; a
frame without an alpha channel is converted to RGB without compositing,
one with an alpha channel is composited over the opaque black background,
and per pixel the composite satisfies `out = src·α + bg·(1 − α)` (with
`α = a/255` and `bg` opaque black), the composited alpha being fully
opaque before it is dropped. -/
theorem flattener_correct (im : Image) (p : PixelRGBA) :
    (rgba_to_rgb im).mode = Mode.RGB
    ∧ (im.mode ≠ Mode.RGBA → rgba_to_rgb im = im.convert Mode.RGB)
    ∧ (im.mode = Mode.RGBA → rgba_to_rgb im =
        (Image.alpha_composite (Image.new .RGBA im.width im.height 0 0 0 255) im).convert
          Mode.RGB)
    ∧ (flatten_pixel p).r = p.r * (p.a / 255) + blackOpaque.r * (1 - p.a / 255)
    ∧ (flatten_pixel p).g = p.g * (p.a / 255) + blackOpaque.g * (1 - p.a / 255)
    ∧ (flatten_pixel p).b = p.b * (p.a / 255) + blackOpaque.b * (1 - p.a / 255)
    ∧ (alphaOverPixel blackOpaque p).a = 255 := by
  have hoa : p.a / 255 + blackOpaque.a / 255 * (1 - p.a / 255) = 1 := by
    show p.a / 255 + (255 : ℚ) / 255 * (1 - p.a / 255) = 1
    ring_nf
  refine ⟨rgba_to_rgb_mode im, ?_, ?_, ?_, ?_, ?_, ?_⟩
  · intro hm
    simp [rgba_to_rgb, hm]
  · intro hm
    simp [rgba_to_rgb, hm]
  · simp only [flatten_pixel, alphaOverPixel, hoa]
    norm_num [blackOpaque]
  · simp only [flatten_pixel, alphaOverPixel, hoa]
    norm_num [blackOpaque]
  · simp only [flatten_pixel, alphaOverPixel, hoa]
    norm_num [blackOpaque]
  · simp only [alphaOverPixel, hoa]
    norm_num

/-- Witness for C8 at a concrete input: the RGB image `img0` (no alpha
channel) and a half-transparent pixel. -/
theorem flattener_correct_witness :
    (img0.mode ≠ Mode.RGBA)
    ∧ ((rgba_to_rgb img0).mode = Mode.RGB
       ∧ rgba_to_rgb img0 = img0.convert Mode.RGB
       ∧ (flatten_pixel ⟨10, 20, 30, 51⟩).r
           = (10 : ℚ) * (51 / 255) + blackOpaque.r * (1 - 51 / 255)
       ∧ (alphaOverPixel blackOpaque ⟨10, 20, 30, 51⟩).a = 255) := by
  have h := flattener_correct img0 ⟨10, 20, 30, 51⟩
  exact ⟨by decide, h.1, h.2.1 (by decide), h.2.2.2.1, h.2.2.2.2.2.2⟩

/-- C9 counterexample: with positive dimensions and `fps = -1 ≤ 0` the
core does not reject — it clamps the fps and returns a GIF, so no
`InvalidParameterError` is raised. -/
theorem no_invalid_parameter_error_cex :
    isOk (build_gif_bytes [img0] 2 2 (-1) Fit.stretch) = true
    ∧ build_gif_bytes [img0] 2 2 (-1) Fit.stretch ≠ .error Err.invalidParameterError := by
  refine ⟨rfl, ?_⟩
  intro hcontra
  have h : isOk (build_gif_bytes [img0] 2 2 (-1) Fit.stretch) = true := rfl
  rw [hcontra] at h
  exact absurd h (by simp [isOk])

/-- C9 amended: the core performs no parameter validation of its own and
defines no `InvalidParameterError`: a run with `fps ≤ 0` proceeds with the
fps clamped to `0.01` (delay `100000` ms) and succeeds, non-positive
dimensions are passed unvalidated to the resize step, and no input
whatsoever makes `build_gif_bytes` return an `InvalidParameterError`. -/
theorem no_param_validation (files : List Image) (w h : ℕ) (fps : ℚ) (fit : Fit)
    (hne : files ≠ []) (hfps : fps ≤ 0) :
    (∃ g, build_gif_bytes files w h fps fit = .ok g
        ∧ g.delays = List.replicate files.length 100000)
    ∧ ∀ (files2 : List Image) (w2 h2 : ℕ) (fps2 : ℚ) (fit2 : Fit),
        build_gif_bytes files2 w2 h2 fps2 fit2 ≠ .error Err.invalidParameterError := by
  constructor
  · obtain ⟨f, fs, rfl⟩ := List.exists_cons_of_ne_nil hne
    obtain ⟨pal, _, hbuild⟩ := build_gif_bytes_eq_ok f fs w h fps fit
    refine ⟨_, hbuild, ?_⟩
    have hmax : max (1 / 100 : ℚ) fps = 1 / 100 := max_eq_left (by linarith)
    have hdur : pyRound (1000 / max (1 / 100) fps) = 100000 := by
      rw [hmax, show (1000 / (1 / 100) : ℚ) = 100000 by norm_num]
      exact pyRound_eq_low 100000 100000 (by norm_num) (by norm_num)
    rw [hdur]
  · intro files2 w2 h2 fps2 fit2 hcontra
    cases files2 with
    | nil =>
      have h0 : (Except.error Err.indexError : Except Err GifOutput)
          = .error Err.invalidParameterError := hcontra
      exact absurd (Except.error.inj h0) (by decide)
    | cons f2 fs2 =>
      obtain ⟨pal2, _, hbuild2⟩ := build_gif_bytes_eq_ok f2 fs2 w2 h2 fps2 fit2
      rw [hbuild2] at hcontra
      exact Except.noConfusion hcontra

/-- Witness for C9's amended statement at a concrete input: one image,
`fps = -1`. -/
theorem no_param_validation_witness :
    (([img0] : List Image) ≠ [] ∧ (-1 : ℚ) ≤ 0)
    ∧ ((∃ g, build_gif_bytes [img0] 2 2 (-1) .stretch = .ok g
          ∧ g.delays = List.replicate [img0].length 100000)
       ∧ ∀ (files2 : List Image) (w2 h2 : ℕ) (fps2 : ℚ) (fit2 : Fit),
           build_gif_bytes files2 w2 h2 fps2 fit2 ≠ .error Err.invalidParameterError) :=
  ⟨⟨by simp, by norm_num⟩,
   no_param_validation [img0] 2 2 (-1) .stretch (by simp) (by norm_num)⟩

/-- C10: for positive source and target dimensions, the ceiling-rounded
scaled dimensions dominate the target (`w ≤ new_w`, `h ≤ new_h`), so the
centered crop box `(left, top, left + w, top + h)` lies entirely within
the resized image — the crop reads no out-of-bounds pixels — and
`_resize_cover_crop` is exactly that crop of the resized image. -/
theorem cover_crop_within_bounds (img : Image) (w h : ℕ)
    (hsw : 0 < img.width) (hsh : 0 < img.height) (hw : 0 < w) (hh : 0 < h) :
    w ≤ cover_new_w img w h
    ∧ h ≤ cover_new_h img w h
    ∧ (cover_new_w img w h - w) / 2 + w
        ≤ (img.resize (cover_new_w img w h) (cover_new_h img w h)).width
    ∧ (cover_new_h img w h - h) / 2 + h
        ≤ (img.resize (cover_new_w img w h) (cover_new_h img w h)).height
    ∧ resize_cover_crop img w h
        = (img.resize (cover_new_w img w h) (cover_new_h img w h)).crop
            ((cover_new_w img w h - w) / 2) ((cover_new_h img w h - h) / 2)
            ((cover_new_w img w h - w) / 2 + w) ((cover_new_h img w h - h) / 2 + h) := by
  have hsw' : (0 : ℚ) < img.width := by exact_mod_cast hsw
  have hsh' : (0 : ℚ) < img.height := by exact_mod_cast hsh
  have hW : w ≤ cover_new_w img w h := by
    have h2 : (w : ℚ) / img.width ≤ cover_scale img w h := le_max_left _ _
    have h1 : (w : ℚ) ≤ (img.width : ℚ) * cover_scale img w h := by
      calc (w : ℚ) = img.width * ((w : ℚ) / img.width) := by field_simp
        _ ≤ img.width * cover_scale img w h :=
            mul_le_mul_of_nonneg_left h2 (le_of_lt hsw')
    have h3 : (w : ℤ) ≤ ⌈(img.width : ℚ) * cover_scale img w h⌉ := by
      have h4 := Int.ceil_mono h1
      simpa using h4
    unfold cover_new_w
    omega
  have hH : h ≤ cover_new_h img w h := by
    have h2 : (h : ℚ) / img.height ≤ cover_scale img w h := le_max_right _ _
    have h1 : (h : ℚ) ≤ (img.height : ℚ) * cover_scale img w h := by
      calc (h : ℚ) = img.height * ((h : ℚ) / img.height) := by field_simp
        _ ≤ img.height * cover_scale img w h :=
            mul_le_mul_of_nonneg_left h2 (le_of_lt hsh')
    have h3 : (h : ℤ) ≤ ⌈(img.height : ℚ) * cover_scale img w h⌉ := by
      have h4 := Int.ceil_mono h1
      simpa using h4
    unfold cover_new_h
    omega
  refine ⟨hW, hH, ?_, ?_, ?_⟩
  · simp only [Image.resize]
    omega
  · simp only [Image.resize]
    omega
  · unfold resize_cover_crop
    rw [if_neg (by omega)]

/-- Witness for C10 at a concrete input: the 4 × 4 image `img0` cropped
to cover a 2 × 2 target. -/
theorem cover_crop_within_bounds_witness :
    (0 < img0.width ∧ 0 < img0.height ∧ 0 < 2 ∧ 0 < 2)
    ∧ (2 ≤ cover_new_w img0 2 2
       ∧ 2 ≤ cover_new_h img0 2 2
       ∧ (cover_new_w img0 2 2 - 2) / 2 + 2
           ≤ (img0.resize (cover_new_w img0 2 2) (cover_new_h img0 2 2)).width
       ∧ (cover_new_h img0 2 2 - 2) / 2 + 2
           ≤ (img0.resize (cover_new_w img0 2 2) (cover_new_h img0 2 2)).height
       ∧ resize_cover_crop img0 2 2
           = (img0.resize (cover_new_w img0 2 2) (cover_new_h img0 2 2)).crop
               ((cover_new_w img0 2 2 - 2) / 2) ((cover_new_h img0 2 2 - 2) / 2)
               ((cover_new_w img0 2 2 - 2) / 2 + 2) ((cover_new_h img0 2 2 - 2) / 2 + 2)) :=
  ⟨⟨by decide, by decide, by decide, by decide⟩,
   cover_crop_within_bounds img0 2 2 (by decide) (by decide) (by decide) (by decide)⟩

end GifMaker


